import Mathlib

/-
Verification of the HackBios mine-safety backend core
(`backend/utils/simulation.py`, `backend/routes/hazards.py`,
`backend/routes/sensors.py`, `backend/models.py`).

Numeric values (sensor readings, coordinates, spread rates) are modelled
as exact rationals `ℚ`; every decimal literal appearing in the Python
source (0.002, 0.33, ...) is exactly representable, so the comparisons
the claims are about are unaffected by this choice.
-/

namespace MineGuard

/-- A mine location: latitude, longitude, sector label, as stored in the
`location` sub-document of a hazard. -/
structure Location where
  lat : ℚ
  lng : ℚ
  sector : String
  deriving Repr, DecidableEq, Inhabited

/-- The fields of a hazard document consumed by the simulation core:
`type`, `severity`, `location`, `status` (other fields of the MongoDB
document are never read by the functions under verification). -/
structure Hazard where
  type : String
  severity : String
  location : Location
  status : String
  deriving Repr, DecidableEq, Inhabited

/-- Embeds `HazardSimulation.SPREAD_RATES` (simulation.py lines 10-17). -/
def SPREAD_RATES : List (String × ℚ) :=
  [("Gas Leak", 0.002),
   ("Fire", 0.003),
   ("Rock Fall", 0.001),
   ("Poor Ventilation", 0.0015),
   ("Equipment Failure", 0.0008),
   ("SOS - EMERGENCY", 0.004)]

/-- Embeds `HazardSimulation.SPREAD_RATES.get(hazard_type, 0.002)`
(simulation.py line 38). -/
def spreadRate (hazard_type : String) : ℚ :=
  (SPREAD_RATES.lookup hazard_type).getD 0.002

/-- One danger zone as built by `calculate_danger_zones`. -/
structure DangerZone where
  level : String
  radius : ℚ
  color : String
  severity : String
  evacuation_time_minutes : ℕ
  deriving Repr, DecidableEq, Inhabited

/-- The innermost zone dict of simulation.py lines 44-50. -/
def critZone (max_radius : ℚ) : DangerZone :=
  ⟨"critical", max_radius * 0.33, "#ef4444", "critical", 1⟩

/-- The middle zone dict of simulation.py lines 51-57. -/
def highZone (max_radius : ℚ) : DangerZone :=
  ⟨"high", max_radius * 0.67, "#f97316", "high", 3⟩

/-- The outermost zone dict of simulation.py lines 58-64. -/
def medZone (max_radius : ℚ) : DangerZone :=
  ⟨"medium", max_radius, "#eab308", "medium", 5⟩

/-- Embeds `HazardSimulation.calculate_danger_zones` (simulation.py
lines 25-67): `max_radius = simulation_time_seconds * spread_rate`, then
the three-element zone list. -/
def calculate_danger_zones (hazard : Hazard) (simulation_time_seconds : ℚ) :
    List DangerZone :=
  let spread_rate := spreadRate hazard.type
  let max_radius := simulation_time_seconds * spread_rate
  [critZone max_radius, highZone max_radius, medZone max_radius]

/-- Embeds `HazardSimulation.detect_hazard_from_sensors` (simulation.py
lines 199-235): the if/elif chain over co2, temperature, humidity. -/
def detect_hazard_from_sensors (co2 temperature humidity : ℚ) :
    Option String × Option String :=
  if co2 > 1000 then
    (some "Gas Leak", some (if co2 > 2000 then "critical" else "high"))
  else if temperature > 40 then
    (some "Fire", some (if temperature > 55 then "critical" else "high"))
  else if humidity < 20 then
    (some "Poor Ventilation", some "medium")
  else if 800 < co2 ∧ co2 ≤ 1000 then
    (some "High CO2 Levels", some "medium")
  else
    (none, none)

/-- A worker record from the roster (routes/hazards.py MOCK_WORKERS):
id, name, role, sector and planar position. -/
structure Worker where
  id : String
  name : String
  role : String
  sector : String
  lat : ℚ
  lng : ℚ
  deriving Repr, DecidableEq, Inhabited

/-- The squared Euclidean distance between a worker and the hazard
origin (simulation.py lines 101-104 compute its square root). -/
def workerDist2 (hazard : Hazard) (w : Worker) : ℚ :=
  (w.lat - hazard.location.lat) ^ 2 + (w.lng - hazard.location.lng) ^ 2

/-- Embeds the comparison `distance <= zone['radius']` of simulation.py
line 108, where `distance = sqrt d2`: for `0 ≤ d2` the real inequality
`sqrt d2 ≤ radius` holds exactly when `0 ≤ radius ∧ d2 ≤ radius ^ 2`
(lemma `zoneRadiusOk_iff_sqrt_le` below), which keeps the definition
decidable over `ℚ`. -/
def zoneRadiusOk (radius d2 : ℚ) : Bool :=
  decide (0 ≤ radius ∧ d2 ≤ radius ^ 2)

/-- Embeds the inner loop of simulation.py lines 107-120: the first zone
in the list whose radius is at least the worker's distance, if any. -/
def firstZone (zones : List DangerZone) (d2 : ℚ) : Option DangerZone :=
  zones.find? (fun z => zoneRadiusOk z.radius d2)

/-- The level of the first matching zone of the hazard's danger zones,
for one worker; `none` when the worker is outside all three radii. -/
def assignedLevel (hazard : Hazard) (t : ℚ) (w : Worker) : Option String :=
  (firstZone (calculate_danger_zones hazard t) (workerDist2 hazard w)).map
    DangerZone.level

/-- Embeds `HazardSimulation.get_action` (simulation.py lines 124-132). -/
def get_action (danger_level hazard_type : String) : String :=
  if danger_level = "critical" then
    "IMMEDIATE EVACUATION - " ++ hazard_type ++ " detected in critical zone. Leave now!"
  else if danger_level = "high" then
    "EVACUATE AREA - " ++ hazard_type ++ " spreading. Move to safe zone."
  else if danger_level = "medium" then
    "ALERT - " ++ hazard_type ++ " detected nearby. Prepare for evacuation."
  else "Monitor situation"

/-- The per-worker record appended to a bucket (simulation.py lines
109-119). The source stores `round(sqrt d2, 4)` under
`distance_from_hazard`; the model keeps the exact squared distance, which
determines it (no claim reads the stored distance). -/
structure AffectedWorker where
  worker_id : String
  name : String
  role : String
  sector : String
  dist2_from_hazard : ℚ
  recommended_action : String
  deriving Repr, DecidableEq, Inhabited

/-- Builds the bucket entry for one worker at one danger level. -/
def mkAffectedRecord (hazard : Hazard) (level : String) (w : Worker) :
    AffectedWorker :=
  ⟨w.id, w.name, w.role, w.sector, workerDist2 hazard w,
   get_action level hazard.type⟩

/-- The `affected` dict of simulation.py lines 90-94: one list per
danger level. -/
structure Affected where
  critical : List AffectedWorker
  high : List AffectedWorker
  medium : List AffectedWorker
  deriving Repr, DecidableEq, Inhabited

/-- Appends a record to the bucket named by `level`
(`affected[zone['level']].append(...)`, simulation.py line 109). -/
def addToBucket (acc : Affected) (level : String) (r : AffectedWorker) :
    Affected :=
  if level = "critical" then { acc with critical := acc.critical ++ [r] }
  else if level = "high" then { acc with high := acc.high ++ [r] }
  else if level = "medium" then { acc with medium := acc.medium ++ [r] }
  else acc

/-- The body of the worker loop of simulation.py lines 96-120 for one
worker: find the first zone containing the worker, append the record to
that zone's bucket, then `break`. -/
def exposureStep (hazard : Hazard) (t : ℚ) (acc : Affected) (w : Worker) :
    Affected :=
  match firstZone (calculate_danger_zones hazard t) (workerDist2 hazard w) with
  | some z => addToBucket acc z.level (mkAffectedRecord hazard z.level w)
  | none => acc

/-- Embeds `HazardSimulation.get_affected_workers` (simulation.py lines
69-122). -/
def get_affected_workers (hazard : Hazard) (workers : List Worker) (t : ℚ) :
    Affected :=
  workers.foldl (exposureStep hazard t) ⟨[], [], []⟩

/-- Bucket selection by level name, for stating exclusivity; levels other
than the three emitted ones have an empty bucket. -/
def Affected.bucket (a : Affected) (level : String) : List AffectedWorker :=
  if level = "critical" then a.critical
  else if level = "high" then a.high
  else if level = "medium" then a.medium
  else []

/-- One animation frame (simulation.py lines 152-165). -/
structure Frame where
  time : ℕ
  danger_zones : List DangerZone
  affected_workers : Affected
  hazard_center : Location
  deriving Repr, DecidableEq, Inhabited

/-- Embeds Python `range(0, stop, step)` for `0 < step`: the values
`0, step, 2·step, ...` strictly below `stop`. -/
def pyRange (stop step : ℕ) : List ℕ :=
  List.range' 0 ((stop + step - 1) / step) step

/-- Embeds `HazardSimulation.generate_simulation_frames` (simulation.py
lines 134-168). The source computes `frame_interval = 1 / fps` and steps
by `int(1 / frame_interval)`; for the frame rates at issue (`fps = 2`,
where `1 / fps` is exactly representable in binary floating point) that
step equals `fps`, which is how it is modelled here. -/
def generate_simulation_frames (hazard : Hazard) (workers : List Worker)
    (total_seconds : ℕ := 30) (fps : ℕ := 2) : List Frame :=
  (pyRange total_seconds fps).map fun t =>
    ⟨t,
     calculate_danger_zones hazard (t : ℚ),
     get_affected_workers hazard workers (t : ℚ),
     hazard.location⟩

/-- The evacuation-route recommendation dict (simulation.py lines
193-197). -/
structure Route where
  direction : String
  priority : String
  estimated_time_minutes : ℕ
  deriving Repr, DecidableEq, Inhabited

/-- Embeds `HazardSimulation.get_evacuation_route` (simulation.py lines
170-197). The `hazard_location` and `worker_location` arguments are
accepted at any type, as the source never reads them. -/
def get_evacuation_route {α β : Type} (hazard_location : α)
    (worker_location : β) (sector : String) : Route :=
  let direction :=
    if sector = "A" then "Move to Sector C via Tunnel 2"
    else if sector = "B" then "Move to Sector A via Tunnel 1"
    else if sector = "C" then "Exit mine immediately via Main Entrance"
    else "Exit to safe zone away from hazard"
  ⟨direction, "CRITICAL", 2⟩

/-- The hazard store, modelled as an association list from document id to
hazard document. Ids are unique in MongoDB; `List.lookup` finds the
matching document. -/
abbrev HazardDB := List (String × Hazard)

/-- The `valid_statuses` list of routes/hazards.py line 107. -/
def valid_statuses : List String :=
  ["pending", "acknowledged", "escalated", "resolved"]

/-- Embeds `HazardModel.update_hazard_status` (models.py lines 95-104):
`update_one({_id: id}, {$set: {status}})` followed by the
`modified_count > 0` check. MongoDB counts a document as modified only
when the `$set` changed a stored value, so a document whose status
already equals `status` matches but is not modified, and the function
returns `None`. Returns the route-visible result together with the
store after the call. -/
def update_hazard_status (db : HazardDB) (hazard_id status : String) :
    Option Hazard × HazardDB :=
  match db.lookup hazard_id with
  | none => (none, db)
  | some h =>
    if h.status = status then (none, db)
    else
      let h2 := { h with status := status }
      (some h2, db.map fun p => if p.1 = hazard_id then (p.1, h2) else p)

/-- Outcome of the PUT status route (routes/hazards.py lines 93-125):
HTTP 400 for an invalid literal, HTTP 404 when the model returned
`None`, otherwise HTTP 200 with the updated record and the new store. -/
inductive SetStatusResult where
  | invalidStatus
  | notFound
  | ok (hazard : Hazard) (db : HazardDB)
  deriving DecidableEq

/-- Embeds `update_hazard_status` of routes/hazards.py lines 93-125 (the
route handler named like the model method): validate the literal, call
the model, map `None` to NotFound. -/
def setStatus (db : HazardDB) (hazard_id status : String) : SetStatusResult :=
  if status ∉ valid_statuses then .invalidStatus
  else
    match update_hazard_status db hazard_id status with
    | (none, _) => .notFound
    | (some h, db2) => .ok h db2

/-- One sensor payload for the ingestion endpoint (routes/sensors.py). -/
structure SensorData where
  co2 : ℚ
  temperature : ℚ
  humidity : ℚ
  location : Location
  workerId : String
  deriving Repr, DecidableEq, Inhabited

/-- The id MongoDB assigns to the inserted document, modelled as fresh
with respect to the current store contents. -/
def freshId (db : HazardDB) : String :=
  "hz" ++ toString db.length

/-- Embeds `HazardModel.create_hazard` (models.py lines 24-47) for the
fields the claims read: the new document gets status `pending` and a
fresh id, and is appended to the store. -/
def create_hazard (db : HazardDB) (hazard_type severity : String)
    (location : Location) : String × Hazard × HazardDB :=
  let hid := freshId db
  let hz : Hazard := ⟨hazard_type, severity, location, "pending"⟩
  (hid, hz, db ++ [(hid, hz)])

/-- Embeds the `socketio.emit` call of routes/sensors.py lines 59-62 as a
fallible action: the boolean says whether the emit raises. -/
def tryEmit (emit_fails : Bool) : Except String Unit :=
  if emit_fails then Except.error "Socket emit failed" else Except.ok ()

/-- The response body of the sensor-ingestion endpoint, with its HTTP
status code. -/
structure SensorResponse where
  status_code : ℕ
  success : Bool
  hazardDetected : Bool
  hazardId : Option String
  message : String
  deriving Repr, DecidableEq, Inhabited

/-- Embeds `receive_sensor_data` (routes/sensors.py lines 9-83) after the
sensor reading is logged: classify, create the hazard when one is
detected, attempt the broadcast inside try/except (both outcomes fall
through to the same return), and build the JSON response. -/
def receive_sensor_data (db : HazardDB) (data : SensorData)
    (emit_fails : Bool) : SensorResponse × HazardDB :=
  match detect_hazard_from_sensors data.co2 data.temperature data.humidity with
  | (some hazard_type, severity) =>
    let (hid, _, db2) :=
      create_hazard db hazard_type (severity.getD "medium") data.location
    match tryEmit emit_fails with
    | Except.ok _ =>
      (⟨201, true, true, some hid, hazard_type ++ " detected!"⟩, db2)
    | Except.error _ =>
      -- except branch: print and continue (routes/sensors.py lines 63-65)
      (⟨201, true, true, some hid, hazard_type ++ " detected!"⟩, db2)
  | (none, _) =>
    (⟨200, true, false, none, "Sensor data logged. All readings normal."⟩, db)

/-- A concrete Gas Leak hazard used to instantiate universally
quantified theorems. -/
def hzGas : Hazard := ⟨"Gas Leak", "high", ⟨1, 2, "A"⟩, "pending"⟩

/-- A concrete Fire hazard at the origin of sector B. -/
def hzFire : Hazard := ⟨"Fire", "critical", ⟨5, 5, "B"⟩, "pending"⟩

/-- A worker standing exactly at `hzGas`'s origin. -/
def wAtOrigin : Worker := ⟨"W001", "John Smith", "Miner", "A", 1, 2⟩

/-- A worker far away from `hzGas`. -/
def wFar : Worker := ⟨"W002", "Mike Johnson", "Driller", "B", 500, 500⟩

/-- A two-worker roster with distinct ids. -/
def twoWorkers : List Worker := [wAtOrigin, wFar]

/-- A one-document store holding `hzGas` under id `h1`. -/
def db1 : HazardDB := [("h1", hzGas)]

/-- A sensor payload whose co2 reading triggers the Gas Leak branch. -/
def gasPayload : SensorData := ⟨1500, 25, 60, ⟨1, 2, "A"⟩, "SENSOR_01"⟩

/-- Every spread rate in the table, and the default, is positive. -/
lemma spreadRate_pos (hazard_type : String) : 0 < spreadRate hazard_type := by
  unfold spreadRate SPREAD_RATES
  simp only [List.lookup]
  split <;> try norm_num
  split <;> try norm_num
  split <;> try norm_num
  split <;> try norm_num
  split <;> try norm_num
  split <;> norm_num

/-- The table entry for the Gas Leak type. -/
lemma spreadRate_gas : spreadRate "Gas Leak" = 0.002 := by
  simp +decide [spreadRate, SPREAD_RATES, List.lookup]

/-- The classifier's secondary type string is absent from the table. -/
lemma lookup_highCO2 : SPREAD_RATES.lookup "High CO2 Levels" = none := by
  simp +decide [SPREAD_RATES, List.lookup]

/-- The absent type falls back to the default rate. -/
lemma spreadRate_highCO2 : spreadRate "High CO2 Levels" = 0.002 := by
  simp +decide [spreadRate, SPREAD_RATES, List.lookup]

/-- C1 counterexample: on co2=1500, temperature=60, humidity=10 the
classifier does not return severity critical (critical requires
co2 > 2000; 1500 only clears the 1000 threshold). -/
theorem classifier_1500_not_critical :
    detect_hazard_from_sensors 1500 60 10 ≠ (some "Gas Leak", some "critical") := by
  decide

/-- C1 (amended): the classifier applied to co2=1500, temperature=60,
humidity=10 returns (Gas Leak, high): the gas check is evaluated first
and wins over the fire and humidity checks, so the type is Gas Leak and
never Fire, and the severity is high because 1500 does not exceed the
2000 threshold for critical. -/
theorem classifier_gas_priority_1500 :
    detect_hazard_from_sensors 1500 60 10 = (some "Gas Leak", some "high") ∧
    (detect_hazard_from_sensors 1500 60 10).1 ≠ some "Fire" := by
  decide

/-- C7: the gas thresholds are strict: co2 exactly 1000 never yields Gas
Leak; co2=1001 with the other readings non-triggering yields
(Gas Leak, high); co2=2001 likewise yields (Gas Leak, critical); and
800 < co2 ≤ 1000 yields (High CO2 Levels, medium) exactly when the gas,
fire and humidity branches all failed. -/
theorem classifier_strict_thresholds :
    (∀ temperature humidity : ℚ,
      (detect_hazard_from_sensors 1000 temperature humidity).1 ≠ some "Gas Leak")
    ∧ (∀ temperature humidity : ℚ, temperature ≤ 40 → 20 ≤ humidity →
      detect_hazard_from_sensors 1001 temperature humidity =
        (some "Gas Leak", some "high"))
    ∧ (∀ temperature humidity : ℚ, temperature ≤ 40 → 20 ≤ humidity →
      detect_hazard_from_sensors 2001 temperature humidity =
        (some "Gas Leak", some "critical"))
    ∧ (∀ co2 temperature humidity : ℚ, 800 < co2 → co2 ≤ 1000 →
      temperature ≤ 40 → 20 ≤ humidity →
      detect_hazard_from_sensors co2 temperature humidity =
        (some "High CO2 Levels", some "medium"))
    ∧ (∀ co2 temperature humidity : ℚ,
      (detect_hazard_from_sensors co2 temperature humidity).1 =
          some "High CO2 Levels" →
      800 < co2 ∧ co2 ≤ 1000 ∧ temperature ≤ 40 ∧ 20 ≤ humidity) := by
  refine ⟨?_, ?_, ?_, ?_, ?_⟩
  · intro temperature humidity
    simp only [detect_hazard_from_sensors]
    norm_num
    split_ifs <;> simp
  · intro temperature humidity ht hh
    simp only [detect_hazard_from_sensors]
    norm_num
  · intro temperature humidity ht hh
    simp only [detect_hazard_from_sensors]
    norm_num
  · intro co2 temperature humidity h800 h1000 ht hh
    simp only [detect_hazard_from_sensors]
    rw [if_neg (by linarith), if_neg (by linarith), if_neg (by linarith),
      if_pos ⟨h800, h1000⟩]
  · intro co2 temperature humidity hres
    simp only [detect_hazard_from_sensors] at hres
    split_ifs at hres <;>
      first
        | (rename_i h1 h2 h3 h4
           exact ⟨h4.1, h4.2, not_lt.mp h2, not_lt.mp h3⟩)
        | simp at hres

/-- C7 witness: the boundary facts at concrete non-triggering companion
readings temperature=25, humidity=60 (and co2=900 for the secondary
branch). -/
theorem classifier_strict_thresholds_witness :
    (detect_hazard_from_sensors 1000 25 60).1 ≠ some "Gas Leak"
    ∧ detect_hazard_from_sensors 1001 25 60 = (some "Gas Leak", some "high")
    ∧ detect_hazard_from_sensors 2001 25 60 = (some "Gas Leak", some "critical")
    ∧ detect_hazard_from_sensors 900 25 60 = (some "High CO2 Levels", some "medium") :=
  ⟨classifier_strict_thresholds.1 25 60,
   classifier_strict_thresholds.2.1 25 60 (by norm_num) (by norm_num),
   classifier_strict_thresholds.2.2.1 25 60 (by norm_num) (by norm_num),
   classifier_strict_thresholds.2.2.2.1 900 25 60 (by norm_num) (by norm_num)
     (by norm_num) (by norm_num)⟩

/-- C2 counterexample: at elapsed time -100 seconds a Gas Leak hazard's
three zone radii are -0.066, -0.134 and -0.2, not zero: the code never
clamps negative elapsed time. -/
theorem danger_zones_negative_time_nonzero :
    (calculate_danger_zones hzGas (-100)).map DangerZone.radius =
      [-0.066, -0.134, -0.2] ∧
    (calculate_danger_zones hzGas (-100)).map DangerZone.radius ≠ [0, 0, 0] := by
  have h : (calculate_danger_zones hzGas (-100)).map DangerZone.radius =
      [-0.066, -0.134, -0.2] := by
    simp only [calculate_danger_zones, critZone, highZone, medZone, hzGas,
      List.map_cons, List.map_nil, spreadRate_gas]
    norm_num
  refine ⟨h, ?_⟩
  rw [h]
  norm_num

/-- C2 (amended): for every hazard type and every elapsedSeconds the
danger-zone computation uses maxRadius = elapsedSeconds * spreadRate with
no clamping; in particular, for any negative elapsed time all three
returned zone radii are strictly negative (not zero). -/
theorem danger_zones_no_clamp (hazard : Hazard) (t : ℚ) :
    ((calculate_danger_zones hazard t).map DangerZone.radius =
      [t * spreadRate hazard.type * 0.33,
       t * spreadRate hazard.type * 0.67,
       t * spreadRate hazard.type])
    ∧ (t < 0 →
        ∀ r ∈ (calculate_danger_zones hazard t).map DangerZone.radius, r < 0) := by
  have hrate := spreadRate_pos hazard.type
  constructor
  · simp [calculate_danger_zones, critZone, highZone, medZone]
  · intro ht r hr
    simp [calculate_danger_zones, critZone, highZone, medZone] at hr
    have hm : t * spreadRate hazard.type < 0 := mul_neg_of_neg_of_pos ht hrate
    rcases hr with h | h | h <;> subst h <;> nlinarith

/-- C2 witness: the no-clamping formula and negative radii at the
concrete Gas Leak hazard and elapsed time -100. -/
theorem danger_zones_no_clamp_witness :
    ((-100 : ℚ) < 0)
    ∧ ((calculate_danger_zones hzGas (-100)).map DangerZone.radius =
        [(-100 : ℚ) * spreadRate hzGas.type * 0.33,
         (-100 : ℚ) * spreadRate hzGas.type * 0.67,
         (-100 : ℚ) * spreadRate hzGas.type])
    ∧ (∀ r ∈ (calculate_danger_zones hzGas (-100)).map DangerZone.radius, r < 0) :=
  ⟨by norm_num,
   (danger_zones_no_clamp hzGas (-100)).1,
   (danger_zones_no_clamp hzGas (-100)).2 (by norm_num)⟩

/-- C4: for every hazard and elapsedSeconds ≥ 0 the zones come back in
the fixed order critical, high, medium with strictly increasing radii,
except at elapsedSeconds = 0 where all three radii are 0. -/
theorem danger_zones_ordered (hazard : Hazard) (t : ℚ) (ht : 0 ≤ t) :
    ((calculate_danger_zones hazard t).map DangerZone.level =
      ["critical", "high", "medium"])
    ∧ (t ≠ 0 →
        List.Chain' (· < ·)
          ((calculate_danger_zones hazard t).map DangerZone.radius))
    ∧ (t = 0 →
        (calculate_danger_zones hazard t).map DangerZone.radius = [0, 0, 0]) := by
  have hrate := spreadRate_pos hazard.type
  refine ⟨?_, ?_, ?_⟩
  · simp [calculate_danger_zones, critZone, highZone, medZone]
  · intro hne
    have ht0 : 0 < t := lt_of_le_of_ne ht (Ne.symm hne)
    have hm : 0 < t * spreadRate hazard.type := mul_pos ht0 hrate
    simp [calculate_danger_zones, critZone, highZone, medZone, List.chain'_cons]
    constructor <;> nlinarith
  · intro h0
    subst h0
    simp [calculate_danger_zones, critZone, highZone, medZone]

/-- C4 witness: the ordering at the concrete Gas Leak hazard and elapsed
time 10. -/
theorem danger_zones_ordered_witness :
    ((0 : ℚ) ≤ 10)
    ∧ ((calculate_danger_zones hzGas 10).map DangerZone.level =
        ["critical", "high", "medium"])
    ∧ ((10 : ℚ) ≠ 0 →
        List.Chain' (· < ·)
          ((calculate_danger_zones hzGas 10).map DangerZone.radius))
    ∧ ((10 : ℚ) = 0 →
        (calculate_danger_zones hzGas 10).map DangerZone.radius = [0, 0, 0]) :=
  ⟨by norm_num,
   (danger_zones_ordered hzGas 10 (by norm_num)).1,
   (danger_zones_ordered hzGas 10 (by norm_num)).2.1,
   (danger_zones_ordered hzGas 10 (by norm_num)).2.2⟩

/-- C10: the type string High CO2 Levels emitted by the classifier's
secondary branch has no entry in the spread-rate table, so it falls back
to the default 0.002, which equals the Gas Leak rate; hence for every
elapsedSeconds its danger zones coincide with those of a Gas Leak
hazard. -/
theorem high_co2_zones_eq_gas_leak :
    (detect_hazard_from_sensors 801 30 50).1 = some "High CO2 Levels"
    ∧ SPREAD_RATES.lookup "High CO2 Levels" = none
    ∧ spreadRate "High CO2 Levels" = 0.002
    ∧ spreadRate "Gas Leak" = 0.002
    ∧ ∀ (sev1 sev2 st1 st2 : String) (loc1 loc2 : Location) (t : ℚ),
        calculate_danger_zones ⟨"High CO2 Levels", sev1, loc1, st1⟩ t =
          calculate_danger_zones ⟨"Gas Leak", sev2, loc2, st2⟩ t := by
  refine ⟨by decide, lookup_highCO2, spreadRate_highCO2, spreadRate_gas, ?_⟩
  intro sev1 sev2 st1 st2 loc1 loc2 t
  simp only [calculate_danger_zones]
  rw [spreadRate_highCO2, spreadRate_gas]

/-- C9: sector B gets direction Move to Sector A via Tunnel 1; every
sector, including unknown ones (which get the generic direction), gets
priority CRITICAL and estimated time 2 minutes, whatever the hazard and
worker location arguments are. -/
theorem evacuation_route_constants {α β : Type} (hazard_location : α)
    (worker_location : β) (sector : String) :
    (get_evacuation_route hazard_location worker_location sector).priority =
      "CRITICAL"
    ∧ (get_evacuation_route hazard_location worker_location sector).estimated_time_minutes = 2
    ∧ (sector = "B" →
        (get_evacuation_route hazard_location worker_location sector).direction =
          "Move to Sector A via Tunnel 1")
    ∧ (sector ≠ "A" → sector ≠ "B" → sector ≠ "C" →
        (get_evacuation_route hazard_location worker_location sector).direction =
          "Exit to safe zone away from hazard") := by
  refine ⟨rfl, rfl, ?_, ?_⟩
  · intro hB
    simp [get_evacuation_route, hB]
  · intro hA hB hC
    simp [get_evacuation_route, hA, hB, hC]

/-- C9 witness: the route constants at concrete locations, for sector B
and for the unknown sector D. -/
theorem evacuation_route_constants_witness :
    ((get_evacuation_route hzGas.location wAtOrigin "B").priority = "CRITICAL")
    ∧ ((get_evacuation_route hzGas.location wAtOrigin "B").estimated_time_minutes = 2)
    ∧ ((get_evacuation_route hzGas.location wAtOrigin "B").direction =
        "Move to Sector A via Tunnel 1")
    ∧ ((get_evacuation_route hzGas.location wAtOrigin "D").direction =
        "Exit to safe zone away from hazard") :=
  ⟨(evacuation_route_constants hzGas.location wAtOrigin "B").1,
   (evacuation_route_constants hzGas.location wAtOrigin "B").2.1,
   (evacuation_route_constants hzGas.location wAtOrigin "B").2.2.1 rfl,
   (evacuation_route_constants hzGas.location wAtOrigin "D").2.2.2
     (by decide) (by decide) (by decide)⟩

/-- Unfolding `List.lookup` one association at a time, with propositional
equality in place of the boolean key test. -/
lemma lookup_cons (k : String) (v : Hazard) (t : HazardDB) (a : String) :
    List.lookup a ((k, v) :: t) = if a = k then some v else List.lookup a t := by
  rcases h : a == k with _ | _
  · rw [if_neg (by simpa using h)]
    simp [List.lookup, h]
  · rw [if_pos (by simpa using h)]
    simp [List.lookup, h]

/-- Replacing the value stored under a present key makes lookup return
the new value. -/
lemma lookup_map_replace (a : String) (h2 : Hazard) :
    ∀ db : HazardDB, (db.lookup a).isSome →
      (db.map fun p => if p.1 = a then (p.1, h2) else p).lookup a = some h2 := by
  intro db
  induction db with
  | nil => simp [List.lookup]
  | cons p t ih =>
    intro hs
    by_cases hp : p.1 = a
    · simp [hp, lookup_cons]
    · have hne : a ≠ p.1 := fun h => hp h.symm
      simp only [List.map_cons, if_neg hp]
      rw [lookup_cons] at hs ⊢
      rw [if_neg hne] at hs ⊢
      exact ih hs

/-- A key found in the appended suffix is still found in the whole
list. -/
lemma lookup_append_right_ne_none (l1 l2 : HazardDB) (a : String)
    (h : l2.lookup a ≠ none) : (l1 ++ l2).lookup a ≠ none := by
  induction l1 with
  | nil => simpa using h
  | cons p t ih =>
    rw [List.cons_append, show p = (p.1, p.2) from rfl, lookup_cons]
    split
    · simp
    · exact ih

/-- C6 counterexample: the store holds hazard h1 with status pending;
setting its status to the valid literal pending answers NotFound, because
the MongoDB update modifies no document, while the claim requires the
updated record to be returned for every existing hazard and valid
literal. -/
theorem set_status_same_status_not_found :
    setStatus db1 "h1" "pending" = SetStatusResult.notFound
    ∧ "pending" ∈ valid_statuses
    ∧ db1.lookup "h1" = some hzGas
    ∧ hzGas.status = "pending" := by
  refine ⟨?_, by decide, by decide, by decide⟩
  simp +decide [setStatus, update_hazard_status, db1, hzGas, valid_statuses,
    List.lookup]

/-- C6 (amended): setStatus fails with InvalidStatus whenever the literal
is not one of the four valid ones; with NotFound when no hazard matches
the id, and also when the matching hazard already carries the requested
status (the update then modifies no document); in the remaining case
(existing hazard, valid literal, different status) it persists the new
status and returns the updated record. -/
theorem set_status_spec (db : HazardDB) (hazard_id status : String) :
    (status ∉ valid_statuses →
      setStatus db hazard_id status = SetStatusResult.invalidStatus)
    ∧ (db.lookup hazard_id = none → status ∈ valid_statuses →
      setStatus db hazard_id status = SetStatusResult.notFound)
    ∧ (∀ h, db.lookup hazard_id = some h → status ∈ valid_statuses →
      h.status = status →
      setStatus db hazard_id status = SetStatusResult.notFound)
    ∧ (∀ h, db.lookup hazard_id = some h → status ∈ valid_statuses →
      h.status ≠ status →
      setStatus db hazard_id status =
        SetStatusResult.ok { h with status := status }
          (db.map fun p =>
            if p.1 = hazard_id then (p.1, { h with status := status }) else p)
      ∧ (db.map fun p =>
            if p.1 = hazard_id then (p.1, { h with status := status }) else p).lookup
          hazard_id = some { h with status := status }) := by
  refine ⟨?_, ?_, ?_, ?_⟩
  · intro hnv
    simp [setStatus, hnv]
  · intro hnone hv
    simp [setStatus, hv, update_hazard_status, hnone]
  · intro h hsome hv heq
    simp [setStatus, hv, update_hazard_status, hsome, heq]
  · intro h hsome hv hne
    refine ⟨?_, lookup_map_replace hazard_id _ db (by rw [hsome]; rfl)⟩
    simp [setStatus, hv, update_hazard_status, hsome, hne]

/-- C6 witness: updating h1 from pending to the valid literal
acknowledged persists and returns the updated record. -/
theorem set_status_spec_witness :
    (db1.lookup "h1" = some hzGas)
    ∧ ("acknowledged" ∈ valid_statuses)
    ∧ (hzGas.status ≠ "acknowledged")
    ∧ (setStatus db1 "h1" "acknowledged" =
        SetStatusResult.ok { hzGas with status := "acknowledged" }
          (db1.map fun p =>
            if p.1 = "h1" then (p.1, { hzGas with status := "acknowledged" }) else p)
      ∧ (db1.map fun p =>
            if p.1 = "h1" then (p.1, { hzGas with status := "acknowledged" }) else p).lookup
          "h1" = some { hzGas with status := "acknowledged" }) :=
  ⟨by decide, by decide, by decide,
   (set_status_spec db1 "h1" "acknowledged").2.2.2 hzGas (by decide) (by decide)
     (by decide)⟩

/-- C8: when the classifier detects a hazard, the ingestion endpoint
creates it and returns HTTP 201 with the created id whether or not the
websocket emit raises: the response and the resulting store are
identical in both cases, and the created hazard is still found in the
store (no rollback). -/
theorem sensor_ingest_emit_failure_harmless (db : HazardDB) (data : SensorData)
    (hdet : (detect_hazard_from_sensors data.co2 data.temperature
        data.humidity).1 ≠ none) :
    ∀ emit_fails : Bool,
      receive_sensor_data db data emit_fails = receive_sensor_data db data false
      ∧ (receive_sensor_data db data emit_fails).1.status_code = 201
      ∧ (receive_sensor_data db data emit_fails).1.success = true
      ∧ (receive_sensor_data db data emit_fails).1.hazardId = some (freshId db)
      ∧ ((receive_sensor_data db data emit_fails).2).lookup (freshId db) ≠ none := by
  intro emit_fails
  rcases hd : detect_hazard_from_sensors data.co2 data.temperature data.humidity
    with ⟨ht, sev⟩
  cases ht with
  | none =>
    rw [hd] at hdet
    simp at hdet
  | some hazard_type =>
    have hlast : ∀ b : Bool,
        ((receive_sensor_data db data b).2).lookup (freshId db) ≠ none := by
      intro b
      cases b <;>
        · simp only [receive_sensor_data, hd, create_hazard, tryEmit,
            Bool.false_eq_true, if_false, if_true]
          apply lookup_append_right_ne_none
          simp [lookup_cons]
    refine ⟨?_, ?_, ?_, ?_, hlast emit_fails⟩ <;>
      cases emit_fails <;>
        simp [receive_sensor_data, hd, create_hazard, tryEmit]

/-- C8 witness: the concrete gas payload (co2=1500) on the one-document
store: the endpoint creates hazard hz1 and answers 201 with its id, emit
failure or not. -/
theorem sensor_ingest_emit_failure_harmless_witness :
    ((detect_hazard_from_sensors gasPayload.co2 gasPayload.temperature
        gasPayload.humidity).1 ≠ none)
    ∧ (receive_sensor_data db1 gasPayload true =
        receive_sensor_data db1 gasPayload false)
    ∧ ((receive_sensor_data db1 gasPayload true).1.status_code = 201)
    ∧ ((receive_sensor_data db1 gasPayload true).1.success = true)
    ∧ ((receive_sensor_data db1 gasPayload true).1.hazardId = some (freshId db1))
    ∧ (((receive_sensor_data db1 gasPayload true).2).lookup (freshId db1) ≠ none) :=
  ⟨by decide,
   (sensor_ingest_emit_failure_harmless db1 gasPayload (by decide) true).1,
   (sensor_ingest_emit_failure_harmless db1 gasPayload (by decide) true).2.1,
   (sensor_ingest_emit_failure_harmless db1 gasPayload (by decide) true).2.2.1,
   (sensor_ingest_emit_failure_harmless db1 gasPayload (by decide) true).2.2.2.1,
   (sensor_ingest_emit_failure_harmless db1 gasPayload (by decide) true).2.2.2.2⟩

/-- The frame times are exactly the sampled range, whatever the hazard
and roster. -/
lemma frames_map_time (hazard : Hazard) (workers : List Worker)
    (total_seconds fps : ℕ) :
    (generate_simulation_frames hazard workers total_seconds fps).map Frame.time =
      pyRange total_seconds fps := by
  simp only [generate_simulation_frames, List.map_map]
  exact List.map_id _

/-- C5 counterexample: with totalSeconds=30 and fps=2 the first two
frame times are 0 and 2: the step is int(1/(1/fps)) = fps = 2 seconds,
not 1/fps rounded to whole seconds, which is 1 (rounding half up) or 0
(truncating), never 2. -/
theorem frames_step_not_half_second :
    ((generate_simulation_frames hzGas [] 30 2).map Frame.time).take 2 = [0, 2]
    ∧ Int.toNat (round ((1 : ℚ) / 2)) = 1
    ∧ Int.toNat ⌊(1 : ℚ) / 2⌋ = 0
    ∧ (2 : ℕ) ≠ 1 ∧ (2 : ℕ) ≠ 0 := by
  refine ⟨?_, ?_, ?_, by decide, by decide⟩
  · rw [frames_map_time]
    decide
  · norm_num [round_eq]
  · norm_num

/-- C5 (amended): the frame generator produces a finite list of frames
whose times start at 0 and advance by fps seconds (the source's
int(1/(1/fps))), all below totalSeconds; in particular for
totalSeconds=30 and fps=2 the times are strictly increasing from 0. -/
theorem frames_step_fps (hazard : Hazard) (workers : List Worker)
    (total_seconds fps : ℕ) (hfps : 0 < fps) (htot : 0 < total_seconds) :
    ((generate_simulation_frames hazard workers total_seconds fps).map
        Frame.time).head? = some 0
    ∧ List.Chain' (fun a b => b = a + fps)
        ((generate_simulation_frames hazard workers total_seconds fps).map
          Frame.time)
    ∧ List.Chain' (· < ·)
        ((generate_simulation_frames hazard workers total_seconds fps).map
          Frame.time)
    ∧ ∀ t ∈ (generate_simulation_frames hazard workers total_seconds fps).map
        Frame.time, t < total_seconds := by
  rw [frames_map_time]
  have hcnt : 0 < (total_seconds + fps - 1) / fps := by
    have h : 1 * fps ≤ total_seconds + fps - 1 := by omega
    have h2 := (Nat.le_div_iff_mul_le hfps).mpr h
    omega
  refine ⟨?_, ?_, ?_, ?_⟩
  · unfold pyRange
    rcases hn : (total_seconds + fps - 1) / fps with _ | k
    · omega
    · rw [List.range'_succ]
      rfl
  · unfold pyRange
    rcases hn : (total_seconds + fps - 1) / fps with _ | k
    · simp
    · rw [List.range'_succ]
      exact List.chain_succ_range' 0 k fps
  · unfold pyRange
    rcases hn : (total_seconds + fps - 1) / fps with _ | k
    · simp
    · rw [List.range'_succ]
      exact List.chain_lt_range' 0 k hfps
  · intro t ht
    unfold pyRange at ht
    rw [List.mem_range'] at ht
    obtain ⟨i, hi, rfl⟩ := ht
    have h1 : (i + 1) * fps ≤ ((total_seconds + fps - 1) / fps) * fps :=
      Nat.mul_le_mul_right fps (Nat.succ_le_of_lt hi)
    have h2 : ((total_seconds + fps - 1) / fps) * fps ≤ total_seconds + fps - 1 :=
      Nat.div_mul_le_self _ _
    have h3 : (i + 1) * fps = i * fps + fps := by ring
    have h4 : fps * i = i * fps := Nat.mul_comm fps i
    omega

/-- C5 witness: the frame-time facts at the concrete Gas Leak hazard,
empty roster, totalSeconds=30 and fps=2. -/
theorem frames_step_fps_witness :
    (0 < 2 ∧ 0 < 30)
    ∧ (((generate_simulation_frames hzGas [] 30 2).map Frame.time).head? = some 0
    ∧ List.Chain' (fun a b => b = a + 2)
        ((generate_simulation_frames hzGas [] 30 2).map Frame.time)
    ∧ List.Chain' (· < ·)
        ((generate_simulation_frames hzGas [] 30 2).map Frame.time)
    ∧ ∀ t ∈ (generate_simulation_frames hzGas [] 30 2).map Frame.time, t < 30) :=
  ⟨⟨by decide, by decide⟩, frames_step_fps hzGas [] 30 2 (by decide) (by decide)⟩

/-- Justification of the `zoneRadiusOk` embedding: for a nonnegative
squared distance, the source's comparison `sqrt d2 <= radius` holds
exactly when the rational test does. -/
lemma zoneRadiusOk_iff_sqrt_le (radius d2 : ℚ) (h2 : 0 ≤ d2) :
    zoneRadiusOk radius d2 = true ↔
      Real.sqrt (d2 : ℝ) ≤ (radius : ℝ) := by
  unfold zoneRadiusOk
  rw [decide_eq_true_eq]
  constructor
  · rintro ⟨hr, hle⟩
    have hrR : (0 : ℝ) ≤ (radius : ℝ) := by exact_mod_cast hr
    have hleR : (d2 : ℝ) ≤ (radius : ℝ) ^ 2 := by exact_mod_cast hle
    calc Real.sqrt (d2 : ℝ) ≤ Real.sqrt ((radius : ℝ) ^ 2) :=
          Real.sqrt_le_sqrt hleR
    _ = (radius : ℝ) := by rw [Real.sqrt_sq hrR]
  · intro hle
    have h2R : (0 : ℝ) ≤ (d2 : ℝ) := by exact_mod_cast h2
    have hrR : (0 : ℝ) ≤ (radius : ℝ) := le_trans (Real.sqrt_nonneg _) hle
    refine ⟨by exact_mod_cast hrR, ?_⟩
    have hsq : (d2 : ℝ) ≤ (radius : ℝ) ^ 2 := by
      calc (d2 : ℝ) = Real.sqrt (d2 : ℝ) ^ 2 := (Real.sq_sqrt h2R).symm
      _ ≤ (radius : ℝ) ^ 2 := by
          exact pow_le_pow_left₀ (Real.sqrt_nonneg _) hle 2
    exact_mod_cast hsq

/-- The squared distance is always nonnegative. -/
lemma workerDist2_nonneg (hazard : Hazard) (w : Worker) :
    0 ≤ workerDist2 hazard w := by
  unfold workerDist2
  positivity

/-- The first matching zone, unfolded over the three concrete zones in
their list order critical, high, medium. -/
lemma firstZone_eq (hazard : Hazard) (t d2 : ℚ) :
    firstZone (calculate_danger_zones hazard t) d2 =
      (if zoneRadiusOk (t * spreadRate hazard.type * 0.33) d2 then
        some (critZone (t * spreadRate hazard.type))
       else if zoneRadiusOk (t * spreadRate hazard.type * 0.67) d2 then
        some (highZone (t * spreadRate hazard.type))
       else if zoneRadiusOk (t * spreadRate hazard.type) d2 then
        some (medZone (t * spreadRate hazard.type))
       else none) := by
  rcases h1 : zoneRadiusOk (t * spreadRate hazard.type * 0.33) d2 with _ | _ <;>
    rcases h2 : zoneRadiusOk (t * spreadRate hazard.type * 0.67) d2 with _ | _ <;>
      rcases h3 : zoneRadiusOk (t * spreadRate hazard.type) d2 with _ | _ <;>
        simp [firstZone, calculate_danger_zones, List.find?, critZone, highZone,
          medZone, h1, h2, h3]

/-- The level of the first matching zone, in the same order. -/
lemma assignedLevel_eq (hazard : Hazard) (t : ℚ) (w : Worker) :
    assignedLevel hazard t w =
      (if zoneRadiusOk (t * spreadRate hazard.type * 0.33) (workerDist2 hazard w)
        then some "critical"
       else if zoneRadiusOk (t * spreadRate hazard.type * 0.67) (workerDist2 hazard w)
        then some "high"
       else if zoneRadiusOk (t * spreadRate hazard.type) (workerDist2 hazard w)
        then some "medium"
       else none) := by
  unfold assignedLevel
  rw [firstZone_eq]
  rcases h1 : zoneRadiusOk (t * spreadRate hazard.type * 0.33) (workerDist2 hazard w)
    with _ | _ <;>
    rcases h2 : zoneRadiusOk (t * spreadRate hazard.type * 0.67) (workerDist2 hazard w)
      with _ | _ <;>
      rcases h3 : zoneRadiusOk (t * spreadRate hazard.type) (workerDist2 hazard w)
        with _ | _ <;>
        simp [critZone, highZone, medZone]

/-- The worker loop, characterised: starting from accumulator `acc`, each
bucket receives exactly the records of the workers assigned to its level,
in roster order. -/
lemma exposure_foldl (hazard : Hazard) (t : ℚ) :
    ∀ (ws : List Worker) (acc : Affected),
      ws.foldl (exposureStep hazard t) acc =
        ⟨acc.critical ++ (ws.filter fun w =>
            assignedLevel hazard t w == some "critical").map
            (mkAffectedRecord hazard "critical"),
         acc.high ++ (ws.filter fun w =>
            assignedLevel hazard t w == some "high").map
            (mkAffectedRecord hazard "high"),
         acc.medium ++ (ws.filter fun w =>
            assignedLevel hazard t w == some "medium").map
            (mkAffectedRecord hazard "medium")⟩ := by
  intro ws
  induction ws with
  | nil => intro acc; simp
  | cons w rest ih =>
    intro acc
    rw [List.foldl_cons, ih]
    rcases hz : firstZone (calculate_danger_zones hazard t) (workerDist2 hazard w)
      with _ | z
    · have hal : assignedLevel hazard t w = none := by
        unfold assignedLevel
        rw [hz]
        rfl
      have hstep : exposureStep hazard t acc w = acc := by
        unfold exposureStep
        rw [hz]
      rw [hstep]
      simp [List.filter_cons, hal]
    · have hmem : z ∈ calculate_danger_zones hazard t :=
        List.mem_of_find?_eq_some hz
      have hal : assignedLevel hazard t w = some z.level := by
        unfold assignedLevel
        rw [hz]
        rfl
      have hstep : exposureStep hazard t acc w =
          addToBucket acc z.level (mkAffectedRecord hazard z.level w) := by
        unfold exposureStep
        rw [hz]
      rw [hstep]
      simp only [calculate_danger_zones, List.mem_cons, List.not_mem_nil,
        or_false] at hmem
      rcases hmem with hc | hh | hm
      · have hlev : z.level = "critical" := by rw [hc]; rfl
        rw [hlev] at hal
        simp [addToBucket, hlev, List.filter_cons, hal]
      · have hlev : z.level = "high" := by rw [hh]; rfl
        rw [hlev] at hal
        simp [addToBucket, hlev, List.filter_cons, hal]
      · have hlev : z.level = "medium" := by rw [hm]; rfl
        rw [hlev] at hal
        simp [addToBucket, hlev, List.filter_cons, hal]

/-- C3: each worker is assigned to the first zone in the order critical,
high, medium whose radius is at least the worker's distance from the
hazard origin, and to no other; the buckets are exactly the assigned
workers in roster order, so workers outside all three radii appear in no
bucket; with distinct roster ids no worker id appears in two buckets;
and a worker at the hazard origin, at positive elapsed time, lands in
the critical bucket. -/
theorem exposure_first_zone_assignment (hazard : Hazard) (workers : List Worker)
    (t : ℚ) (hnodup : (workers.map Worker.id).Nodup) :
    (∀ w : Worker, assignedLevel hazard t w =
      (if zoneRadiusOk (t * spreadRate hazard.type * 0.33) (workerDist2 hazard w)
        then some "critical"
       else if zoneRadiusOk (t * spreadRate hazard.type * 0.67) (workerDist2 hazard w)
        then some "high"
       else if zoneRadiusOk (t * spreadRate hazard.type) (workerDist2 hazard w)
        then some "medium"
       else none))
    ∧ ((get_affected_workers hazard workers t).critical =
        (workers.filter fun w => assignedLevel hazard t w == some "critical").map
          (mkAffectedRecord hazard "critical")
      ∧ (get_affected_workers hazard workers t).high =
        (workers.filter fun w => assignedLevel hazard t w == some "high").map
          (mkAffectedRecord hazard "high")
      ∧ (get_affected_workers hazard workers t).medium =
        (workers.filter fun w => assignedLevel hazard t w == some "medium").map
          (mkAffectedRecord hazard "medium"))
    ∧ (∀ l1 l2 : String, l1 ≠ l2 →
        ∀ r1 ∈ (get_affected_workers hazard workers t).bucket l1,
        ∀ r2 ∈ (get_affected_workers hazard workers t).bucket l2,
          r1.worker_id ≠ r2.worker_id)
    ∧ (∀ w ∈ workers, 0 < t → w.lat = hazard.location.lat →
        w.lng = hazard.location.lng →
        mkAffectedRecord hazard "critical" w ∈
          (get_affected_workers hazard workers t).critical) := by
  have hga : get_affected_workers hazard workers t =
      ⟨(workers.filter fun w => assignedLevel hazard t w == some "critical").map
          (mkAffectedRecord hazard "critical"),
       (workers.filter fun w => assignedLevel hazard t w == some "high").map
          (mkAffectedRecord hazard "high"),
       (workers.filter fun w => assignedLevel hazard t w == some "medium").map
          (mkAffectedRecord hazard "medium")⟩ := by
    unfold get_affected_workers
    rw [exposure_foldl]
    simp
  have hbucket : ∀ l : String,
      ∀ r ∈ (get_affected_workers hazard workers t).bucket l,
        ∃ w, w ∈ workers ∧ assignedLevel hazard t w = some l ∧
          r.worker_id = w.id := by
    intro l r hr
    unfold Affected.bucket at hr
    rw [hga] at hr
    split_ifs at hr with h1 h2 h3
    · obtain ⟨w, hwmem, rfl⟩ := List.mem_map.mp hr
      obtain ⟨hwin, hcond⟩ := List.mem_filter.mp hwmem
      subst h1
      exact ⟨w, hwin, by simpa using hcond, rfl⟩
    · obtain ⟨w, hwmem, rfl⟩ := List.mem_map.mp hr
      obtain ⟨hwin, hcond⟩ := List.mem_filter.mp hwmem
      subst h2
      exact ⟨w, hwin, by simpa using hcond, rfl⟩
    · obtain ⟨w, hwmem, rfl⟩ := List.mem_map.mp hr
      obtain ⟨hwin, hcond⟩ := List.mem_filter.mp hwmem
      subst h3
      exact ⟨w, hwin, by simpa using hcond, rfl⟩
    · simp at hr
  refine ⟨fun w => assignedLevel_eq hazard t w, ⟨?_, ?_, ?_⟩, ?_, ?_⟩
  · rw [hga]
  · rw [hga]
  · rw [hga]
  · intro l1 l2 hne r1 hr1 r2 hr2 hid
    obtain ⟨w1, hw1, ha1, hid1⟩ := hbucket l1 r1 hr1
    obtain ⟨w2, hw2, ha2, hid2⟩ := hbucket l2 r2 hr2
    have hweq : w1 = w2 :=
      List.inj_on_of_nodup_map hnodup hw1 hw2 (by rw [← hid1, ← hid2, hid])
    rw [hweq, ha2] at ha1
    exact hne (Option.some.inj ha1).symm
  · intro w hw ht hlat hlng
    have hd0 : workerDist2 hazard w = 0 := by
      unfold workerDist2
      rw [hlat, hlng]
      ring
    have hm : 0 < t * spreadRate hazard.type :=
      mul_pos ht (spreadRate_pos hazard.type)
    have hok : zoneRadiusOk (t * spreadRate hazard.type * 0.33) 0 = true := by
      unfold zoneRadiusOk
      rw [decide_eq_true_eq]
      constructor
      · nlinarith
      · positivity
    have hal : assignedLevel hazard t w = some "critical" := by
      rw [assignedLevel_eq, hd0, if_pos hok]
    rw [hga]
    exact List.mem_map.mpr ⟨w, List.mem_filter.mpr ⟨hw, by simp [hal]⟩, rfl⟩

/-- C3 witness: on the two-worker roster with distinct ids, at elapsed
time 10, the worker standing at the Gas Leak origin is in the critical
bucket. -/
theorem exposure_first_zone_assignment_witness :
    ((twoWorkers.map Worker.id).Nodup)
    ∧ (wAtOrigin ∈ twoWorkers ∧ (0 : ℚ) < 10
        ∧ wAtOrigin.lat = hzGas.location.lat
        ∧ wAtOrigin.lng = hzGas.location.lng)
    ∧ mkAffectedRecord hzGas "critical" wAtOrigin ∈
        (get_affected_workers hzGas twoWorkers 10).critical :=
  ⟨by decide, ⟨by decide, by decide, by decide, by decide⟩,
   (exposure_first_zone_assignment hzGas twoWorkers 10 (by decide)).2.2.2
     wAtOrigin (by decide) (by decide) (by decide) (by decide)⟩

end MineGuard
